import Mathlib

/-!
Verification of the MetaMaster batch EXIF-metadata engine (`src/main.py`)
against its natural-language specification.

The Python source is shallowly embedded: each function of `main.py` becomes a
Lean definition of the same name.  External collaborators that are not part of
the repository (the PIL image codec, the piexif load/dump pair, `hashlib.md5`,
`ExifTags.TAGS`, the filesystem) are modelled as components of an `Env` / state
record, exactly at the interface boundary the code uses:

* `Image.open` either raises (modelled by `FileData.corrupt`) or yields an
  image carrying `img._getexif()` (a parsed tag dict or `None`), the raw
  `img.info` EXIF bytes (present or absent), and opaque pixel content.
* `hashlib.md5(path).hexdigest()` is an arbitrary function `hashKey` of the
  path string only (content-independent fingerprint).
* `piexif.load` / `piexif.dump` are arbitrary total functions at the codec
  boundary; `piexif.ImageIFD.__dict__.values()` etc. are the lists of numeric
  tag identifiers of the five IFD classes (the non-integer dunder entries of
  `__dict__` can never equal an integer tag id, so they are omitted).
* `print` and file I/O are recorded in an explicit event trace.

Python dict semantics (`d[k] = v` keeps the position of an existing key,
appends a fresh key; truthiness of values) are embedded by `dictSet`,
`dlookup` and `pyTruthy`.
-/

namespace MetaMaster

/-- A Python runtime value as far as the engine inspects it: `isinstance`
checks distinguish `str` and `int`; byte strings and every other object are
passed through.  `other` carries an opaque identifier. -/
inductive PyVal where
  | str (s : String)
  | int (n : Int)
  | bytes (b : List UInt8)
  | other (id : Nat)
  deriving DecidableEq, Repr

/-- Python truthiness of the values the engine tests with `if v:`. An empty
string, zero and an empty byte string are falsy; generic objects are truthy. -/
def pyTruthy : PyVal → Bool
  | .str s => !s.isEmpty
  | .int n => n != 0
  | .bytes b => !b.isEmpty
  | .other _ => true

abbrev TagId := Nat
abbrev FilePath := String

/-- Key of the metadata dict built by `extract_metadata`:
`ExifTags.TAGS.get(tag_id, tag_id)` yields the tag name when known, otherwise
the raw numeric identifier. -/
abbrev TagKey := String ⊕ TagId

abbrev MetadataMap := List (TagKey × PyVal)

/-- Association-list lookup with Python-dict semantics (keys are unique in a
dict, so first match is the match). -/
def dlookup {α β : Type} [DecidableEq α] (k : α) : List (α × β) → Option β
  | [] => none
  | (a, b) :: rest => if a = k then some b else dlookup k rest

/-- Python `d[k] = v` on an insertion-ordered dict: an existing key keeps its
position and gets the new value; a fresh key is appended at the end. -/
def dictSet {α β : Type} [DecidableEq α] : List (α × β) → α → β → List (α × β)
  | [], k, v => [(k, v)]
  | (a, b) :: rest, k, v =>
    if a = k then (k, v) :: rest else (a, b) :: dictSet rest k v

/-- What `Image.open(file_path)` yields for a given path.  `corrupt` models any
exception from open/decode (missing file, not an image, truncated data);
`good` carries the parsed `_getexif()` view, the raw `info` EXIF block if the
file has one, and opaque pixel content. -/
inductive FileData where
  | corrupt (err : String)
  | good (getexifData : Option (List (TagId × PyVal)))
      (exifRaw : Option (List UInt8)) (pixels : Nat)
  deriving DecidableEq

/-- Observable events of a run: a file open (any decode I/O), a file write,
and a printed report line. -/
inductive Event where
  | evOpen (fp : FilePath)
  | evWrite (fp : FilePath)
  | evPrint (s : String)
  deriving DecidableEq, Repr

/-- An event is file I/O when it opens or writes a file (printing is not). -/
def isFileAccess : Event → Bool
  | .evOpen _ => true
  | .evWrite _ => true
  | .evPrint _ => false

/-- The five IFD selector strings used as keys of a piexif dict. -/
inductive IFD where
  | zeroth
  | exifD
  | gps
  | interop
  | first
  deriving DecidableEq, Repr

/-- A decoded piexif dict: one tag dict per IFD (the thumbnail bytes entry is
never touched by the engine and is elided). -/
structure ExifDict where
  zeroth : List (TagId × PyVal)
  exifD : List (TagId × PyVal)
  gps : List (TagId × PyVal)
  interop : List (TagId × PyVal)
  first : List (TagId × PyVal)
  deriving DecidableEq

/-- Selection `exif_dict[ifd]` of one IFD tag dict. -/
def getIFD (d : ExifDict) : IFD → List (TagId × PyVal)
  | .zeroth => d.zeroth
  | .exifD => d.exifD
  | .gps => d.gps
  | .interop => d.interop
  | .first => d.first

/-- Assignment `exif_dict[ifd][tag_id] = v`. -/
def setIFD (d : ExifDict) (i : IFD) (t : TagId) (v : PyVal) : ExifDict :=
  match i with
  | .zeroth => { d with zeroth := dictSet d.zeroth t v }
  | .exifD => { d with exifD := dictSet d.exifD t v }
  | .gps => { d with gps := dictSet d.gps t v }
  | .interop => { d with interop := dictSet d.interop t v }
  | .first => { d with first := dictSet d.first t v }

/-- Static collaborators of one run: the path fingerprint, the tag-name
ontology, the five piexif IFD identifier sets, and the codec boundary. -/
structure Env where
  hashKey : FilePath → String
  tags : List (TagId × String)
  imageIFDIds : List TagId
  exifIFDIds : List TagId
  gpsIFDIds : List TagId
  interopIFDIds : List TagId
  firstIFDIds : List TagId
  piexifLoad : List UInt8 → ExifDict
  piexifDump : ExifDict → List UInt8
  getexifOf : List UInt8 → Option (List (TagId × PyVal))

/-- Mutable state of one run: the filesystem contents and the global
`exif_cache` dict (fingerprint → MetadataMap). -/
structure RunState where
  fs : FilePath → FileData
  cache : List (String × MetadataMap)

/-- Point update of the filesystem after `img.save`. -/
def fsUpdate (fs : FilePath → FileData) (fp : FilePath) (d : FileData) :
    FilePath → FileData :=
  fun p => if p = fp then d else fs p

/-- Outcome paired with the path by `extract_metadata`: a metadata dict, the
Python `None` for a file without (truthy) EXIF data, or an error string. -/
inductive Outcome where
  | metadata (m : MetadataMap)
  | noMetadata
  | error (msg : String)
  deriving DecidableEq

/-- Function `hash_key` of `main.py`: the md5 hexdigest of the path string, i.e. the
abstract content-independent fingerprint `Env.hashKey`. -/
def hash_key (e : Env) (fp : FilePath) : String :=
  e.hashKey fp

/-- The loop of `extract_metadata` lines 24-27: build `metadata` by
`metadata[TAGS.get(tag_id, tag_id)] = value` over the `_getexif()` items. -/
def buildMetadata (tags : List (TagId × String)) (items : List (TagId × PyVal)) :
    MetadataMap :=
  items.foldl
    (fun m p =>
      match dlookup p.1 tags with
      | some name => dictSet m (Sum.inl name) p.2
      | none => dictSet m (Sum.inr p.1) p.2)
    []

/-- Function `extract_metadata` of `main.py` (lines 14-33).  Returns the
`(file_path, outcome)` pair, the state after the call, and the trace of I/O
performed by the call.  A cache hit returns immediately with no I/O; only a
truthy (non-empty) metadata dict is stored into the cache. -/
def extract_metadata (e : Env) (st : RunState) (fp : FilePath) :
    (FilePath × Outcome) × RunState × List Event :=
  match dlookup (hash_key e fp) st.cache with
  | some m => ((fp, .metadata m), st, [])
  | none =>
    match st.fs fp with
    | .corrupt err => ((fp, .error ("Error: " ++ err)), st, [.evOpen fp])
    | .good ge _raw _px =>
      match ge with
      | some items =>
        if items.isEmpty then
          ((fp, .noMetadata), st, [.evOpen fp])
        else
          ((fp, .metadata (buildMetadata e.tags items)),
            { st with
                cache := dictSet st.cache (hash_key e fp) (buildMetadata e.tags items) },
            [.evOpen fp])
      | none => ((fp, .noMetadata), st, [.evOpen fp])

/-- Lines 46-58 of `modify_metadata`: the IFD owning a resolved tag id, found
by membership in the five piexif identifier sets in fixed precedence order,
defaulting to the 0th (Primary) IFD. -/
def resolveIFD (e : Env) (tagId : TagId) : IFD :=
  if e.imageIFDIds.contains tagId then .zeroth
  else if e.exifIFDIds.contains tagId then .exifD
  else if e.gpsIFDIds.contains tagId then .gps
  else if e.interopIFDIds.contains tagId then .interop
  else if e.firstIFDIds.contains tagId then .first
  else .zeroth

/-- Lines 60-65 of `modify_metadata`: type-directed encoding of the new value.
`isinstance(v, str)` → UTF-8 bytes; `isinstance(v, int)` → unchanged; any
other value → unchanged. -/
def encodeValue : PyVal → PyVal
  | .str s => .bytes s.toUTF8.data.toList
  | .int n => .int n
  | v => v

/-- The inverse tag mapping built at line 43:
`exif_tags = {v: k for k, v in ExifTags.TAGS.items()}` (a dict comprehension,
so a later duplicate name overrides an earlier one). -/
def invertTags (tags : List (TagId × String)) : List (String × TagId) :=
  tags.foldl (fun d p => dictSet d p.2 p.1) []

/-- Function `modify_metadata` of `main.py` (lines 35-73).  Returns the state after the
call and its I/O + print trace.  Exceptions from `Image.open` are modelled by
`FileData.corrupt`; `piexif.load/dump` and `img.save` are modelled total at
the codec boundary (their failures would also land in the per-file except
arm).  Printed strings elide Python quoting of interpolated values. -/
def modify_metadata (e : Env) (st : RunState) (fp : FilePath)
    (tagName : String) (newValue : PyVal) : RunState × List Event :=
  match st.fs fp with
  | .corrupt err =>
    (st, [.evOpen fp, .evPrint ("Error modifying " ++ fp ++ ": " ++ err)])
  | .good _ge raw px =>
    match raw with
    | none =>
      (st, [.evOpen fp,
        .evPrint ("No EXIF data found in " ++ fp ++ ". Cannot modify.")])
    | some rawBytes =>
      match dlookup tagName (invertTags e.tags) with
      | some tagId =>
        let exifDict := e.piexifLoad rawBytes
        let ifd := resolveIFD e tagId
        let newDict := setIFD exifDict ifd tagId (encodeValue newValue)
        let exifBytes := e.piexifDump newDict
        ({ st with
            fs := fsUpdate st.fs fp (.good (e.getexifOf exifBytes) (some exifBytes) px) },
          [.evOpen fp, .evWrite fp,
            .evPrint ("Modified " ++ tagName ++ " in " ++ fp)])
      | none =>
        (st, [.evOpen fp,
          .evPrint ("Tag " ++ tagName ++ " not found in EXIF metadata of " ++ fp)])

/-- Function `delete_metadata` of `main.py` (lines 75-81): rewrite the file with an
empty EXIF block (`img.save` with empty `exif` bytes), pixels preserved. -/
def delete_metadata (e : Env) (st : RunState) (fp : FilePath) :
    RunState × List Event :=
  match st.fs fp with
  | .corrupt err =>
    (st, [.evOpen fp, .evPrint ("Error deleting metadata from " ++ fp ++ ": " ++ err)])
  | .good _ge _raw px =>
    ({ st with fs := fsUpdate st.fs fp (.good (e.getexifOf []) (some []) px) },
      [.evOpen fp, .evWrite fp, .evPrint ("Deleted EXIF metadata from " ++ fp)])

/-- The sequential extract loop of `process_images` (lines 85-89): one
`extract_metadata` call per path, results appended in input order, the global
cache threaded through the calls. -/
def extractLoop (e : Env) :
    RunState → List FilePath → List (FilePath × Outcome) × RunState × List Event
  | st, [] => ([], st, [])
  | st, fp :: rest =>
    let r := extract_metadata e st fp
    let rest1 := extractLoop e r.2.1 rest
    (r.1 :: rest1.1, rest1.2.1, r.2.2 ++ rest1.2.2)

/-- The sequential delete loop of `process_images` (lines 91-92). -/
def deleteLoop (e : Env) : RunState → List FilePath → RunState × List Event
  | st, [] => (st, [])
  | st, fp :: rest =>
    let r := delete_metadata e st fp
    let rest1 := deleteLoop e r.1 rest
    (rest1.1, r.2 ++ rest1.2)

/-- The sequential modify loop of `process_images` (lines 95-96). -/
def modifyLoop (e : Env) (tagName : String) (newValue : PyVal) :
    RunState → List FilePath → RunState × List Event
  | st, [] => (st, [])
  | st, fp :: rest =>
    let r := modify_metadata e st fp tagName newValue
    let rest1 := modifyLoop e tagName newValue r.1 rest
    (rest1.1, r.2 ++ rest1.2)

/-- Function `process_images` of `main.py` (lines 83-100).  `tagName`/`newValue` are the
Python defaulted parameters (`None` ↦ `none`); `if tag_name and new_value:` is
Python truthiness of both.  Returns the extract results (`none` for the other
operations, mirroring the Python implicit `None`), the final state and the
trace. -/
def process_images (e : Env) (st : RunState) (fileList : List FilePath)
    (operation : String) (tagName : Option String) (newValue : Option PyVal) :
    Option (List (FilePath × Outcome)) × RunState × List Event :=
  if operation = "extract" then
    let r := extractLoop e st fileList
    (some r.1, r.2.1, r.2.2)
  else if operation = "delete" then
    let r := deleteLoop e st fileList
    (none, r.1, r.2)
  else if operation = "modify" then
    match tagName, newValue with
    | some tn, some nv =>
      if !tn.isEmpty && pyTruthy nv then
        let r := modifyLoop e tn nv st fileList
        (none, r.1, r.2)
      else
        (none, st, [.evPrint "Missing tag name or value for modification operation."])
    | _, _ =>
      (none, st, [.evPrint "Missing tag name or value for modification operation."])
  else
    (none, st, [.evPrint ("Unknown operation: " ++ operation)])

/-- Fuel-indexed worker for `chunkList`; the fuel (list length) dominates the
number of slices whenever the stride is positive. -/
def chunkGo {α : Type} (n : Nat) : Nat → List α → List (List α)
  | 0, _ => []
  | _, [] => []
  | fuel + 1, l => l.take n :: chunkGo n fuel (l.drop n)

/-- The slicing loop `for i in range(0, total_files, batch_size):
batch = files[i:i + batch_size]` of `batch_process_images` (lines 112-113). -/
def chunkList {α : Type} (n : Nat) (l : List α) : List (List α) :=
  chunkGo n l.length l

/-- Model of `pool.map(extract_metadata, batch_files)` (lines 117-118): every worker
process is forked with a copy of the parent state, results are gathered in
input order (the `Pool.map` order-preserving gather), and cache mutations stay
in the children so the parent state is untouched.  Each task is evaluated
against the forked parent state. -/
def poolMapExtract (e : Env) (st : RunState) (batch : List FilePath) :
    List (FilePath × Outcome) :=
  batch.map (fun fp => (extract_metadata e st fp).1)

/-- The report block printed for one extract outcome (lines 119-127); tag
lines and `os.path.basename` are elided to one line per file. -/
def extractReportLine (p : FilePath × Outcome) : Event :=
  match p.2 with
  | .metadata _ => .evPrint ("Metadata for " ++ p.1 ++ ":")
  | .noMetadata => .evPrint ("No EXIF metadata found in " ++ p.1 ++ ".")
  | .error msg => .evPrint ("Error processing " ++ p.1 ++ ": " ++ msg)

/-- The decode I/O performed inside the worker processes of one extract batch:
one open per non-cache-hit path, in task order. -/
def poolExtractTrace (e : Env) (st : RunState) (batch : List FilePath) :
    List Event :=
  (batch.map (fun fp => (extract_metadata e st fp).2.2)).flatten

/-- Python `f.lower()` on the character list (directory entries are ASCII here). -/
def lowerAscii (s : String) : String :=
  ⟨s.data.map Char.toLower⟩

/-- Python `s.endswith(suffix)` on the character list. -/
def strEndsWith (s suffix : String) : Bool :=
  suffix.data.isSuffixOf s.data

/-- The line 104 allow-list test: lowercase the entry name and test the
three image extensions. -/
def isImageFile (f : String) : Bool :=
  strEndsWith (lowerAscii f) ".jpg" || strEndsWith (lowerAscii f) ".jpeg" ||
    strEndsWith (lowerAscii f) ".png"

/-- Model of `os.path.join(folder_path, f)` for POSIX paths. -/
def joinPath (folder f : String) : String :=
  folder ++ "/" ++ f

/-- The body of the batch loop (lines 116-139) for one batch of joined file
paths: dispatch on the operation, returning the state after the batch and the
per-batch trace.  For `extract` the parent state is unchanged (worker caches are
forked copies); for `delete`/`modify` the file writes of the workers land on
the shared filesystem — the paths of a batch are distinct directory entries,
so the parallel writes are equivalent to the sequential fold.  The
unknown-operation and missing-parameter messages sit inside the batch loop in
the source, hence appear here, once per batch. -/
def batchStep (e : Env) (operation : String) (tagName : Option String)
    (newValue : Option PyVal) (st : RunState) (batchFiles : List FilePath) :
    RunState × List Event :=
  if operation = "extract" then
    let results := poolMapExtract e st batchFiles
    (st, poolExtractTrace e st batchFiles ++ results.map extractReportLine)
  else if operation = "delete" then
    deleteLoop e st batchFiles
  else if operation = "modify" then
    match tagName, newValue with
    | some tn, some nv =>
      if !tn.isEmpty && pyTruthy nv then
        modifyLoop e tn nv st batchFiles
      else
        (st, [.evPrint "Missing tag name or value for modification operation."])
    | _, _ =>
      (st, [.evPrint "Missing tag name or value for modification operation."])
  else
    (st, [.evPrint ("Unknown operation: " ++ operation)])

/-- The batch loop of `batch_process_images` over all slices of the eligible
file list. -/
def batchLoop (e : Env) (operation : String) (tagName : Option String)
    (newValue : Option PyVal) :
    RunState → List (List FilePath) → RunState × List Event
  | st, [] => (st, [])
  | st, b :: rest =>
    let r := batchStep e operation tagName newValue st b
    let rest1 := batchLoop e operation tagName newValue r.1 rest
    (rest1.1, r.2 ++ rest1.2)

/-- Function `batch_process_images` of `main.py` (lines 102-143).  `listing` is the
sequence `os.listdir(folder_path)` produces; the engine filters it to the
image-extension allow-list, slices it into `batchSize` batches and runs each
batch through a fresh worker pool.  The elapsed-seconds figure of the summary
line is elided (wall-clock time is outside the model). -/
def batch_process_images (e : Env) (st : RunState) (folderPath : String)
    (listing : List String) (operation : String) (tagName : Option String)
    (newValue : Option PyVal) (batchSize : Nat) : RunState × List Event :=
  let files := listing.filter isImageFile
  if files.length = 0 then
    (st, [.evPrint "No images found in the specified folder."])
  else
    let header : Event :=
      .evPrint ("Found " ++ toString files.length ++ " image(s) in " ++
        folderPath ++ ". Starting " ++ operation ++ " operation...")
    let batches := (chunkList batchSize files).map (fun b => b.map (joinPath folderPath))
    let r := batchLoop e operation tagName newValue st batches
    (r.1, header :: r.2 ++ [.evPrint (operation ++ " operation completed.")])

/-- The aggregated `(file_path, outcome)` pairs a full extract run produces:
the per-batch `pool.map` result lists, concatenated in batch order.  For
extract the parent state is the same at every batch (no main-process cache
mutation), so every batch sees `st`. -/
def batch_extract_results (e : Env) (st : RunState) (folderPath : String)
    (listing : List String) (batchSize : Nat) : List (FilePath × Outcome) :=
  ((chunkList batchSize (listing.filter isImageFile)).map
    (fun b => poolMapExtract e st (b.map (joinPath folderPath)))).flatten

/-- Number of occurrences of one event in a trace. -/
def countEv (x : Event) (tr : List Event) : Nat :=
  (tr.filter (fun y => y = x)).length

/-- Test `isinstance(v, str)`. -/
def isStrInstance : PyVal → Bool
  | .str _ => true
  | _ => false

/-- Test `isinstance(v, int)`. -/
def isIntInstance : PyVal → Bool
  | .int _ => true
  | _ => false

/-! ## A concrete test environment

A small closed instantiation of the collaborator boundary, used to evaluate
the engine on concrete inputs: a two-entry tag ontology (`Artist` and
`ExposureTime`), the usual IFD memberships, and a trivial codec. -/

/-- Concrete collaborator instantiation for concrete runs. -/
def envEx : Env where
  hashKey := fun fp => "md5-" ++ fp
  tags := [(315, "Artist"), (33434, "ExposureTime")]
  imageIFDIds := [256, 315]
  exifIFDIds := [33434, 36867]
  gpsIFDIds := [2, 4]
  interopIFDIds := [1]
  firstIFDIds := [259]
  piexifLoad := fun _ => ⟨[(315, .str "old")], [], [], [], []⟩
  piexifDump := fun _ => [7]
  getexifOf := fun _ => none

/-- Concrete starting state: `a.jpg` opens but carries no EXIF data at all,
`b.jpg` has one Artist tag, `c.jpg` is corrupt, and the cache is empty. -/
def stEx : RunState where
  fs := fun fp =>
    if fp = "a.jpg" then .good none none 0
    else if fp = "b.jpg" then .good (some [(315, .str "Alice")]) (some [1, 2]) 5
    else .corrupt "bad file"
  cache := []

/-! ## Dictionary and extraction lemmas -/

/-- Looking up the key just set finds the new value. -/
theorem dlookup_dictSet {α β : Type} [DecidableEq α]
    (m : List (α × β)) (k : α) (v : β) :
    dlookup k (dictSet m k v) = some v := by
  induction m with
  | nil => simp [dictSet, dlookup]
  | cons p rest ih =>
    obtain ⟨a, b⟩ := p
    by_cases h : a = k
    · simp [dictSet, dlookup, h]
    · simp [dictSet, dlookup, h, ih]

/-- Function `extract_metadata` always pairs the outcome with its own input path. -/
theorem extract_metadata_fst (e : Env) (st : RunState) (fp : FilePath) :
    ((extract_metadata e st fp).1).1 = fp := by
  unfold extract_metadata
  repeat' split
  all_goals rfl

/-- Cache hit: immediate return of the cached map, no state change, no I/O. -/
theorem extract_metadata_hit (e : Env) (st : RunState) (fp : FilePath)
    (m : MetadataMap) (h : dlookup (hash_key e fp) st.cache = some m) :
    extract_metadata e st fp = ((fp, .metadata m), st, []) := by
  unfold extract_metadata
  rw [h]

/-- Cache miss on a corrupt file: error outcome, no state change, one open. -/
theorem extract_metadata_corrupt (e : Env) (st : RunState) (fp : FilePath)
    (err : String) (h1 : dlookup (hash_key e fp) st.cache = none)
    (h2 : st.fs fp = .corrupt err) :
    extract_metadata e st fp =
      ((fp, .error ("Error: " ++ err)), st, [.evOpen fp]) := by
  unfold extract_metadata
  rw [h1, h2]

/-- Cache miss, `_getexif()` returns `None`: no-metadata outcome, no state
change, one open, nothing cached. -/
theorem extract_metadata_getexif_none (e : Env) (st : RunState) (fp : FilePath)
    (raw : Option (List UInt8)) (px : Nat)
    (h1 : dlookup (hash_key e fp) st.cache = none)
    (h2 : st.fs fp = .good none raw px) :
    extract_metadata e st fp = ((fp, .noMetadata), st, [.evOpen fp]) := by
  unfold extract_metadata
  rw [h1, h2]

/-- Cache miss, `_getexif()` returns an empty dict (falsy): same no-metadata
outcome, nothing cached. -/
theorem extract_metadata_getexif_empty (e : Env) (st : RunState) (fp : FilePath)
    (raw : Option (List UInt8)) (px : Nat)
    (h1 : dlookup (hash_key e fp) st.cache = none)
    (h2 : st.fs fp = .good (some []) raw px) :
    extract_metadata e st fp = ((fp, .noMetadata), st, [.evOpen fp]) := by
  unfold extract_metadata
  rw [h1, h2]
  simp

/-- Cache miss on a file with a truthy metadata dict: the built map is
returned and cached under the path fingerprint. -/
theorem extract_metadata_found (e : Env) (st : RunState) (fp : FilePath)
    (items : List (TagId × PyVal)) (raw : Option (List UInt8)) (px : Nat)
    (h1 : dlookup (hash_key e fp) st.cache = none)
    (h2 : st.fs fp = .good (some items) raw px) (h3 : items ≠ []) :
    extract_metadata e st fp =
      ((fp, .metadata (buildMetadata e.tags items)),
        { st with
            cache := dictSet st.cache (hash_key e fp) (buildMetadata e.tags items) },
        [.evOpen fp]) := by
  unfold extract_metadata
  rw [h1, h2]
  simp [h3]

/-- The sequential extract loop pairs each input path, in order, with exactly
one outcome. -/
theorem extractLoop_map_fst (e : Env) :
    ∀ (st : RunState) (files : List FilePath),
      ((extractLoop e st files).1).map Prod.fst = files := by
  intro st files
  induction files generalizing st with
  | nil => rfl
  | cons fp rest ih =>
    simp only [extractLoop, List.map_cons]
    rw [extract_metadata_fst, ih]

/-- Order-preserving gather of one batch: the pool result pairs each path of
the batch, in order, with one outcome. -/
theorem poolMapExtract_map_fst (e : Env) (st : RunState) (batch : List FilePath) :
    (poolMapExtract e st batch).map Prod.fst = batch := by
  unfold poolMapExtract
  rw [List.map_map]
  have h : ∀ fp ∈ batch, (Prod.fst ∘ fun q => (extract_metadata e st q).1) fp = fp := by
    intro fp _
    exact extract_metadata_fst e st fp
  rw [List.map_congr_left h]
  exact List.map_id' batch

/-- Concatenating the slices of a positive stride restores the list. -/
theorem chunkGo_flatten {α : Type} (n : Nat) (hn : 0 < n) :
    ∀ (fuel : Nat) (l : List α), l.length ≤ fuel → (chunkGo n fuel l).flatten = l := by
  intro fuel
  induction fuel with
  | zero =>
    intro l hl
    have : l = [] := List.eq_nil_of_length_eq_zero (Nat.le_zero.mp hl)
    subst this
    rfl
  | succ f ih =>
    intro l hl
    cases l with
    | nil => rfl
    | cons x xs =>
      show (List.take n (x :: xs) :: chunkGo n f (List.drop n (x :: xs))).flatten = x :: xs
      have hdrop : (List.drop n (x :: xs)).length ≤ f := by
        rw [List.length_drop]
        have hx : (x :: xs).length ≤ f + 1 := hl
        omega
      simp only [List.flatten_cons]
      rw [ih _ hdrop, List.take_append_drop]

/-- The batch slicing of line 112-113 partitions the file list exactly. -/
theorem chunkList_flatten {α : Type} (n : Nat) (hn : 0 < n) (l : List α) :
    (chunkList n l).flatten = l :=
  chunkGo_flatten n hn l.length l (Nat.le_refl _)

/-- C1. Every run of the extract operation yields exactly one
`(FilePath, Outcome)` pair per enumerated eligible file, in enumeration order,
regardless of per-file failures: the aggregated batch results of
`batch_process_images` project back to the eligible file list (so each file
contributes exactly one pair, corrupt files included, and the count matches
the number of eligible files), and likewise the sequential `process_images`
extract loop returns one pair per input path in input order.
-/
theorem extract_results_complete (e : Env) (st : RunState) (folderPath : String)
    (listing : List String) (batchSize : Nat) (fileList : List FilePath)
    (hb : 0 < batchSize) :
    (batch_extract_results e st folderPath listing batchSize).map Prod.fst
        = ((listing.filter isImageFile).map (joinPath folderPath))
    ∧ (batch_extract_results e st folderPath listing batchSize).length
        = (listing.filter isImageFile).length
    ∧ (process_images e st fileList "extract" none none).1
        = some ((extractLoop e st fileList).1)
    ∧ ((extractLoop e st fileList).1).map Prod.fst = fileList := by
  have hmap : (batch_extract_results e st folderPath listing batchSize).map Prod.fst
      = ((listing.filter isImageFile).map (joinPath folderPath)) := by
    unfold batch_extract_results
    rw [List.map_flatten, List.map_map]
    have h1 : ∀ b ∈ chunkList batchSize (listing.filter isImageFile),
        ((List.map Prod.fst ∘ fun c => poolMapExtract e st (c.map (joinPath folderPath))) b)
          = b.map (joinPath folderPath) := by
      intro b _
      exact poolMapExtract_map_fst e st (b.map (joinPath folderPath))
    rw [List.map_congr_left h1]
    have h2 : (chunkList batchSize (listing.filter isImageFile)).map
          (fun b => b.map (joinPath folderPath))
        = (chunkList batchSize (listing.filter isImageFile)).map
          (List.map (joinPath folderPath)) := rfl
    rw [h2, ← List.map_flatten, chunkList_flatten batchSize hb]
  refine ⟨hmap, ?_, rfl, extractLoop_map_fst e st fileList⟩
  have := congrArg List.length hmap
  simpa using this

/-- Witness for C1 at a concrete folder listing and batch size 2 (three
entries, one filtered out by the extension allow-list). -/
theorem extract_results_complete_witness :
    0 < 2
    ∧ ((batch_extract_results envEx stEx "d" ["a.jpg", "b.jpg", "c.txt"] 2).map Prod.fst
        = ((["a.jpg", "b.jpg", "c.txt"].filter isImageFile).map (joinPath "d"))
      ∧ (batch_extract_results envEx stEx "d" ["a.jpg", "b.jpg", "c.txt"] 2).length
        = (["a.jpg", "b.jpg", "c.txt"].filter isImageFile).length
      ∧ (process_images envEx stEx ["b.jpg", "c.jpg"] "extract" none none).1
        = some ((extractLoop envEx stEx ["b.jpg", "c.jpg"]).1)
      ∧ ((extractLoop envEx stEx ["b.jpg", "c.jpg"]).1).map Prod.fst
        = ["b.jpg", "c.jpg"]) :=
  ⟨by decide,
    extract_results_complete envEx stEx "d" ["a.jpg", "b.jpg", "c.txt"] 2
      ["b.jpg", "c.jpg"] (by decide)⟩

/-- C3 counterexample. The claim quantifies over every FilePath, but for a
file whose `_getexif()` is `None` ("a.jpg") the first extract call returns the
no-metadata outcome (not a MetadataMap) and the second call in the same run
performs decode I/O again (it re-opens the file), because nothing was cached:
caching only happens for a truthy metadata dict.
-/
theorem extract_cache_idempotent_counterexample :
    ((extract_metadata envEx stEx "a.jpg").1).2 = Outcome.noMetadata
    ∧ (extract_metadata envEx ((extract_metadata envEx stEx "a.jpg").2.1) "a.jpg").2.2
        = [Event.evOpen "a.jpg"] := by
  decide

/-- C3 (amended). For every FilePath whose extract call in a run returns a
MetadataMap, a second extract call in the same run (no external file mutation)
returns the identical MetadataMap, performs no decode I/O, and is answered
from the Result Cache (the fingerprint key maps to that same map).  Files
whose first call yields "no metadata" or an error are not cached and are
re-opened by the second call.
-/
theorem extract_cache_idempotent (e : Env) (st : RunState) (fp : FilePath)
    (m : MetadataMap)
    (h : ((extract_metadata e st fp).1).2 = Outcome.metadata m) :
    ((extract_metadata e ((extract_metadata e st fp).2.1) fp).1).2
        = Outcome.metadata m
    ∧ (extract_metadata e ((extract_metadata e st fp).2.1) fp).2.2 = []
    ∧ dlookup (hash_key e fp) ((extract_metadata e st fp).2.1).cache = some m := by
  cases hq : dlookup (hash_key e fp) st.cache with
  | some m0 =>
    have he := extract_metadata_hit e st fp m0 hq
    rw [he] at h
    have hm : m0 = m := by simpa using h
    subst hm
    rw [he]
    have he2 := extract_metadata_hit e st fp m0 hq
    rw [he2]
    exact ⟨rfl, rfl, hq⟩
  | none =>
    cases hf : st.fs fp with
    | corrupt err =>
      rw [extract_metadata_corrupt e st fp err hq hf] at h
      simp at h
    | good ge raw px =>
      cases ge with
      | none =>
        rw [extract_metadata_getexif_none e st fp raw px hq hf] at h
        simp at h
      | some items =>
        by_cases hi : items = []
        · subst hi
          rw [extract_metadata_getexif_empty e st fp raw px hq hf] at h
          simp at h
        · have he := extract_metadata_found e st fp items raw px hq hf hi
          rw [he] at h
          have hm : buildMetadata e.tags items = m := by simpa using h
          rw [he]
          have hl : dlookup (hash_key e fp)
              (dictSet st.cache (hash_key e fp) (buildMetadata e.tags items))
              = some (buildMetadata e.tags items) :=
            dlookup_dictSet st.cache (hash_key e fp) (buildMetadata e.tags items)
          have he2 := extract_metadata_hit e
            { st with
                cache := dictSet st.cache (hash_key e fp) (buildMetadata e.tags items) }
            fp (buildMetadata e.tags items) hl
          rw [he2]
          exact ⟨by rw [hm], rfl, by rw [← hm]; exact hl⟩

/-- Witness for amended C3: "b.jpg" extracts to a one-entry Artist map, and
the second call returns the same map from the cache with no I/O. -/
theorem extract_cache_idempotent_witness :
    ((extract_metadata envEx stEx "b.jpg").1).2
        = Outcome.metadata [(Sum.inl "Artist", PyVal.str "Alice")]
    ∧ (((extract_metadata envEx ((extract_metadata envEx stEx "b.jpg").2.1) "b.jpg").1).2
        = Outcome.metadata [(Sum.inl "Artist", PyVal.str "Alice")]
      ∧ (extract_metadata envEx ((extract_metadata envEx stEx "b.jpg").2.1) "b.jpg").2.2 = []
      ∧ dlookup (hash_key envEx "b.jpg") ((extract_metadata envEx stEx "b.jpg").2.1).cache
        = some [(Sum.inl "Artist", PyVal.str "Alice")]) :=
  ⟨by decide,
    extract_cache_idempotent envEx stEx "b.jpg"
      [(Sum.inl "Artist", PyVal.str "Alice")] (by decide)⟩

/-- C4 counterexample. When extract finds no metadata block ("a.jpg" has
`_getexif() = None`), the outcome is `noMetadata` but nothing is recorded in
the Result Cache (the cache is still empty and the fingerprint key is absent),
so the second extract call on the same path re-opens the file instead of
short-circuiting.
-/
theorem no_metadata_not_cached_counterexample :
    ((extract_metadata envEx stEx "a.jpg").1).2 = Outcome.noMetadata
    ∧ ((extract_metadata envEx stEx "a.jpg").2.1).cache = []
    ∧ dlookup (hash_key envEx "a.jpg") ((extract_metadata envEx stEx "a.jpg").2.1).cache
        = none
    ∧ (extract_metadata envEx ((extract_metadata envEx stEx "a.jpg").2.1) "a.jpg").2.2
        = [Event.evOpen "a.jpg"] := by
  decide

/-- C4 (amended). When extract finds that a file has no (truthy) metadata
block, it returns the "no metadata" outcome but does **not** record it in the
Result Cache: the run state is unchanged, and a second extract call on the
same path in the same run re-opens the file (performs decode I/O again)
instead of short-circuiting on the cache.
-/
theorem no_metadata_not_cached (e : Env) (st : RunState) (fp : FilePath)
    (ge : Option (List (TagId × PyVal))) (raw : Option (List UInt8)) (px : Nat)
    (h1 : dlookup (hash_key e fp) st.cache = none)
    (h2 : st.fs fp = FileData.good ge raw px)
    (h3 : (match ge with | some items => items.isEmpty | none => true) = true) :
    ((extract_metadata e st fp).1).2 = Outcome.noMetadata
    ∧ (extract_metadata e st fp).2.1 = st
    ∧ (extract_metadata e ((extract_metadata e st fp).2.1) fp).2.2
        = [Event.evOpen fp] := by
  cases ge with
  | none =>
    have he := extract_metadata_getexif_none e st fp raw px h1 h2
    rw [he]
    exact ⟨rfl, rfl, by rw [he]⟩
  | some items =>
    have hi : items = [] := by
      cases items with
      | nil => rfl
      | cons x xs => simp at h3
    subst hi
    have he := extract_metadata_getexif_empty e st fp raw px h1 h2
    rw [he]
    exact ⟨rfl, rfl, by rw [he]⟩

/-- Witness for amended C4 at "a.jpg" in the concrete state. -/
theorem no_metadata_not_cached_witness :
    dlookup (hash_key envEx "a.jpg") stEx.cache = none
    ∧ stEx.fs "a.jpg" = FileData.good none none 0
    ∧ (((extract_metadata envEx stEx "a.jpg").1).2 = Outcome.noMetadata
      ∧ (extract_metadata envEx stEx "a.jpg").2.1 = stEx
      ∧ (extract_metadata envEx ((extract_metadata envEx stEx "a.jpg").2.1) "a.jpg").2.2
        = [Event.evOpen "a.jpg"]) :=
  ⟨by decide, by decide,
    no_metadata_not_cached envEx stEx "a.jpg" none none 0 (by decide) (by decide)
      (by decide)⟩

/-- C5. Directory resolution is a pure function of the tag id: equal tag ids
resolve to the same `MetadataDirectory`; membership is tested against the five
static identifier sets in the fixed precedence order Primary (0th), Exif, GPS,
Interoperability, Thumbnail (1st); and a tag id contained in none of the five
sets falls back to Primary (0th).
-/
theorem resolveIFD_deterministic_with_default (e : Env) (t t2 : TagId) :
    (t2 = t → resolveIFD e t2 = resolveIFD e t)
    ∧ (e.imageIFDIds.contains t = true → resolveIFD e t = IFD.zeroth)
    ∧ (e.imageIFDIds.contains t = false → e.exifIFDIds.contains t = true →
        resolveIFD e t = IFD.exifD)
    ∧ (e.imageIFDIds.contains t = false → e.exifIFDIds.contains t = false →
        e.gpsIFDIds.contains t = true → resolveIFD e t = IFD.gps)
    ∧ (e.imageIFDIds.contains t = false → e.exifIFDIds.contains t = false →
        e.gpsIFDIds.contains t = false → e.interopIFDIds.contains t = true →
        resolveIFD e t = IFD.interop)
    ∧ (e.imageIFDIds.contains t = false → e.exifIFDIds.contains t = false →
        e.gpsIFDIds.contains t = false → e.interopIFDIds.contains t = false →
        e.firstIFDIds.contains t = true → resolveIFD e t = IFD.first)
    ∧ (e.imageIFDIds.contains t = false → e.exifIFDIds.contains t = false →
        e.gpsIFDIds.contains t = false → e.interopIFDIds.contains t = false →
        e.firstIFDIds.contains t = false → resolveIFD e t = IFD.zeroth) := by
  refine ⟨fun h => by rw [h], ?_, ?_, ?_, ?_, ?_, ?_⟩ <;>
    (intros; simp_all [resolveIFD])

/-- Witness for C5: tag id 33434 (ExposureTime) is not a 0th-IFD identifier
but is an Exif-IFD identifier, and resolves to the Exif directory. -/
theorem resolveIFD_deterministic_with_default_witness :
    resolveIFD envEx 33434 = IFD.exifD :=
  (resolveIFD_deterministic_with_default envEx 33434 33434).2.2.1 (by decide)
    (by decide)

/-- C7. On a file that opens but carries no metadata block (no EXIF key
from `img.info`), modify reports "cannot modify" and stops without writing:
the call returns the state unchanged (no metadata block is created, the file
content at every path is untouched) and its trace contains the open and the
report, but no write.
-/
theorem modify_no_metadata_noop (e : Env) (st : RunState) (fp : FilePath)
    (tagName : String) (newValue : PyVal)
    (ge : Option (List (TagId × PyVal))) (px : Nat)
    (h : st.fs fp = FileData.good ge none px) :
    modify_metadata e st fp tagName newValue
      = (st, [Event.evOpen fp,
          Event.evPrint ("No EXIF data found in " ++ fp ++ ". Cannot modify.")])
    ∧ ((modify_metadata e st fp tagName newValue).1).fs fp = st.fs fp
    ∧ ((modify_metadata e st fp tagName newValue).2).filter isFileAccess
        = [Event.evOpen fp] := by
  have he : modify_metadata e st fp tagName newValue
      = (st, [Event.evOpen fp,
          Event.evPrint ("No EXIF data found in " ++ fp ++ ". Cannot modify.")]) := by
    unfold modify_metadata
    rw [h]
  rw [he]
  exact ⟨rfl, rfl, by simp [isFileAccess]⟩

/-- Witness for C7: "a.jpg" opens with no EXIF block; modify leaves the state
unchanged and writes nothing. -/
theorem modify_no_metadata_noop_witness :
    stEx.fs "a.jpg" = FileData.good none none 0
    ∧ (modify_metadata envEx stEx "a.jpg" "Artist" (PyVal.str "Bob")
        = (stEx, [Event.evOpen "a.jpg",
            Event.evPrint ("No EXIF data found in " ++ "a.jpg" ++ ". Cannot modify.")])
      ∧ ((modify_metadata envEx stEx "a.jpg" "Artist" (PyVal.str "Bob")).1).fs "a.jpg"
        = stEx.fs "a.jpg"
      ∧ ((modify_metadata envEx stEx "a.jpg" "Artist" (PyVal.str "Bob")).2).filter isFileAccess
        = [Event.evOpen "a.jpg"]) :=
  ⟨by decide,
    modify_no_metadata_noop envEx stEx "a.jpg" "Artist" (PyVal.str "Bob") none 0
      (by decide)⟩

/-- C8. The new TagValue is encoded by its runtime type — a text value becomes
its UTF-8 bytes, an integer is kept as-is, any other value passes through
unmodified — and the encoded value is stored at `[MetadataDirectory][TagID]`
of the decoded structure before re-encoding: on the successful modify path the
file is rewritten with `piexif.dump` of exactly the decoded dict updated at
that position, and looking up `[ifd][tagId]` in the updated dict yields the
encoded value.
-/
theorem modify_encodes_by_runtime_type (e : Env) (st : RunState) (fp : FilePath)
    (tagName : String) (newValue : PyVal) (s : String) (n : Int) (v : PyVal)
    (ge : Option (List (TagId × PyVal))) (raw : List UInt8) (px : Nat)
    (tagId : TagId) (d : ExifDict) (i : IFD) (t : TagId) (w : PyVal)
    (hv1 : isStrInstance v = false) (hv2 : isIntInstance v = false)
    (h1 : st.fs fp = FileData.good ge (some raw) px)
    (h2 : dlookup tagName (invertTags e.tags) = some tagId) :
    encodeValue (PyVal.str s) = PyVal.bytes (String.toUTF8 s).data.toList
    ∧ encodeValue (PyVal.int n) = PyVal.int n
    ∧ encodeValue v = v
    ∧ dlookup t (getIFD (setIFD d i t w) i) = some w
    ∧ modify_metadata e st fp tagName newValue
      = ({ st with
            fs := fsUpdate st.fs fp
              (FileData.good
                (e.getexifOf (e.piexifDump
                  (setIFD (e.piexifLoad raw) (resolveIFD e tagId) tagId
                    (encodeValue newValue))))
                (some (e.piexifDump
                  (setIFD (e.piexifLoad raw) (resolveIFD e tagId) tagId
                    (encodeValue newValue))))
                px) },
          [Event.evOpen fp, Event.evWrite fp,
            Event.evPrint ("Modified " ++ tagName ++ " in " ++ fp)]) := by
  refine ⟨rfl, rfl, ?_, ?_, ?_⟩
  · cases v <;> simp_all [isStrInstance, isIntInstance, encodeValue]
  · cases i <;> simp [getIFD, setIFD, dlookup_dictSet]
  · unfold modify_metadata
    rw [h1, h2]

/-- Witness for C8: modifying Artist on "b.jpg" with a non-str non-int value
(a byte string) passes it through and rewrites the file with the dumped
updated dict. -/
theorem modify_encodes_by_runtime_type_witness :
    isStrInstance (PyVal.bytes [9]) = false
    ∧ isIntInstance (PyVal.bytes [9]) = false
    ∧ stEx.fs "b.jpg" = FileData.good (some [(315, PyVal.str "Alice")]) (some [1, 2]) 5
    ∧ dlookup "Artist" (invertTags envEx.tags) = some 315
    ∧ (encodeValue (PyVal.str "hi") = PyVal.bytes (String.toUTF8 "hi").data.toList
      ∧ encodeValue (PyVal.int 3) = PyVal.int 3
      ∧ encodeValue (PyVal.bytes [9]) = PyVal.bytes [9]
      ∧ dlookup 315 (getIFD (setIFD ⟨[], [], [], [], []⟩ IFD.zeroth 315 (PyVal.int 1)) IFD.zeroth)
        = some (PyVal.int 1)
      ∧ modify_metadata envEx stEx "b.jpg" "Artist" (PyVal.bytes [9])
        = ({ stEx with
              fs := fsUpdate stEx.fs "b.jpg"
                (FileData.good
                  (envEx.getexifOf (envEx.piexifDump
                    (setIFD (envEx.piexifLoad [1, 2]) (resolveIFD envEx 315) 315
                      (encodeValue (PyVal.bytes [9])))))
                  (some (envEx.piexifDump
                    (setIFD (envEx.piexifLoad [1, 2]) (resolveIFD envEx 315) 315
                      (encodeValue (PyVal.bytes [9])))))
                  5) },
            [Event.evOpen "b.jpg", Event.evWrite "b.jpg",
              Event.evPrint ("Modified " ++ "Artist" ++ " in " ++ "b.jpg")])) :=
  ⟨by decide, by decide, by decide, by decide,
    modify_encodes_by_runtime_type envEx stEx "b.jpg" "Artist" (PyVal.bytes [9])
      "hi" 3 (PyVal.bytes [9]) (some [(315, PyVal.str "Alice")]) [1, 2] 5 315
      ⟨[], [], [], [], []⟩ IFD.zeroth 315 (PyVal.int 1)
      (by decide) (by decide) (by decide) (by decide)⟩

/-- C9. Modify and delete never read or write the Result Cache: after a
modify or a delete on any path, the cache component of the state is the very
same dict, and every fingerprint key still maps to the byte-identical cached
MetadataMap it mapped to before.
-/
theorem modify_delete_preserve_cache (e : Env) (st : RunState) (fp : FilePath)
    (tagName : String) (newValue : PyVal) (k : String) :
    ((modify_metadata e st fp tagName newValue).1).cache = st.cache
    ∧ ((delete_metadata e st fp).1).cache = st.cache
    ∧ dlookup k (((modify_metadata e st fp tagName newValue).1).cache)
        = dlookup k st.cache
    ∧ dlookup k (((delete_metadata e st fp).1).cache) = dlookup k st.cache := by
  have hm : ((modify_metadata e st fp tagName newValue).1).cache = st.cache := by
    unfold modify_metadata
    cases st.fs fp with
    | corrupt err => rfl
    | good ge raw px =>
      cases raw with
      | none => rfl
      | some rawBytes =>
        cases dlookup tagName (invertTags e.tags) with
        | some tagId => rfl
        | none => rfl
  have hd : ((delete_metadata e st fp).1).cache = st.cache := by
    unfold delete_metadata
    cases st.fs fp with
    | corrupt err => rfl
    | good ge raw px => rfl
  exact ⟨hm, hd, by rw [hm], by rw [hd]⟩

/-- Python truthiness of `tag_name and new_value` for the modify parameters
(`None` and the empty string are falsy tag names; `None`, `0`, `""` and `b""`
are falsy values). -/
def modifyParamsPresent : Option String → Option PyVal → Bool
  | some tn, some nv => !tn.isEmpty && pyTruthy nv
  | _, _ => false

/-- Truthiness of the optional tag-name parameter alone. -/
def strParamTruthy : Option String → Bool
  | none => false
  | some s => !s.isEmpty

/-- Truthiness of the optional new-value parameter alone. -/
def valParamTruthy : Option PyVal → Bool
  | none => false
  | some v => pyTruthy v

/-- Expression `tag_name and new_value` is truthy exactly when both parameters are. -/
theorem modifyParamsPresent_eq (tn : Option String) (nv : Option PyVal) :
    modifyParamsPresent tn nv = (strParamTruthy tn && valParamTruthy nv) := by
  cases tn <;> cases nv <;>
    simp [modifyParamsPresent, strParamTruthy, valParamTruthy]

/-- A list of report lines contains no file I/O. -/
theorem filter_isFileAccess_const_print {α : Type} (l : List α) (msg : String) :
    ((l.map fun _ => Event.evPrint msg).filter isFileAccess) = [] := by
  induction l with
  | nil => rfl
  | cons x xs ih => simp [isFileAccess, ih]

/-- One occurrence of the repeated event per list element. -/
theorem countEv_const {α : Type} (l : List α) (x : Event) :
    countEv x (l.map fun _ => x) = l.length := by
  induction l with
  | nil => rfl
  | cons y ys ih =>
    simp only [List.map_cons, countEv, List.filter_cons]
    simp only [decide_eq_true_eq, if_pos rfl, List.length_cons]
    have := ih
    simp only [countEv] at this
    simp [this]

/-- An unrecognized operation makes `process_images` print the configuration
error once and return immediately, touching nothing. -/
theorem processImages_unknown (e : Env) (st : RunState) (fileList : List FilePath)
    (operation : String) (tn : Option String) (nv : Option PyVal)
    (h1 : operation ≠ "extract") (h2 : operation ≠ "delete")
    (h3 : operation ≠ "modify") :
    process_images e st fileList operation tn nv
      = (none, st, [Event.evPrint ("Unknown operation: " ++ operation)]) := by
  unfold process_images
  simp [h1, h2, h3]

/-- An unrecognized operation makes every pass of the batch loop print the
configuration error once, leaving the state untouched. -/
theorem batchLoop_unknown (e : Env) (operation : String) (tn : Option String)
    (nv : Option PyVal) (h1 : operation ≠ "extract") (h2 : operation ≠ "delete")
    (h3 : operation ≠ "modify") :
    ∀ (st : RunState) (batches : List (List FilePath)),
      batchLoop e operation tn nv st batches
        = (st, batches.map fun _ => Event.evPrint ("Unknown operation: " ++ operation)) := by
  intro st batches
  induction batches generalizing st with
  | nil => rfl
  | cons b rest ih =>
    simp only [batchLoop, batchStep, if_neg h1, if_neg h2, if_neg h3]
    rw [ih]
    simp

/-- Missing modify parameters make `process_images` print the configuration
error once and return immediately, touching nothing. -/
theorem processImages_missing (e : Env) (st : RunState) (fileList : List FilePath)
    (tn : Option String) (nv : Option PyVal)
    (h : modifyParamsPresent tn nv = false) :
    process_images e st fileList "modify" tn nv
      = (none, st,
          [Event.evPrint "Missing tag name or value for modification operation."]) := by
  unfold process_images
  cases tn with
  | none => cases nv <;> rfl
  | some t =>
    cases nv with
    | none => rfl
    | some v =>
      have hb : (!t.isEmpty && pyTruthy v) = false := h
      simp [hb]

/-- Missing modify parameters make every pass of the batch loop print the
configuration error once, leaving the state untouched. -/
theorem batchLoop_missing (e : Env) (tn : Option String) (nv : Option PyVal)
    (h : modifyParamsPresent tn nv = false) :
    ∀ (st : RunState) (batches : List (List FilePath)),
      batchLoop e "modify" tn nv st batches
        = (st, batches.map fun _ =>
            Event.evPrint "Missing tag name or value for modification operation.") := by
  intro st batches
  induction batches generalizing st with
  | nil => rfl
  | cons b rest ih =>
    have hstep : batchStep e "modify" tn nv st b
        = (st, [Event.evPrint "Missing tag name or value for modification operation."]) := by
      unfold batchStep
      cases tn with
      | none => cases nv <;> rfl
      | some t =>
        cases nv with
        | none => rfl
        | some v =>
          have hb : (!t.isEmpty && pyTruthy v) = false := h
          simp [hb]
    simp only [batchLoop, hstep]
    rw [ih]
    simp

/-- A directory listing of eleven eligible images: more than one default-size
batch. -/
def listing11 : List String :=
  ["f01.jpg", "f02.jpg", "f03.jpg", "f04.jpg", "f05.jpg", "f06.jpg",
    "f07.jpg", "f08.jpg", "f09.jpg", "f10.jpg", "f11.jpg"]

/-- C2 counterexample. With eleven eligible files and batch size 10, the run
for the unrecognized operation "rename" reports the configuration error twice
(once per batch), not exactly once — though it indeed performs no file I/O.
-/
theorem unknown_operation_reported_once_counterexample :
    countEv (Event.evPrint ("Unknown operation: " ++ "rename"))
        ((batch_process_images envEx stEx "d" listing11 "rename" none none 10).2) = 2
    ∧ ((batch_process_images envEx stEx "d" listing11 "rename" none none 10).2).filter
        isFileAccess = [] := by
  decide

/-- C2 (amended). For every operation selector outside {extract, modify,
delete}: no file I/O ever occurs and the run state (files and cache) is left
untouched; `process_images` reports the configuration error exactly once and
processes nothing; but `batch_process_images` does not abort before its batch
loop — it reports the error once per batch (so exactly once per run only when
the eligible files fit in a single batch).
-/
theorem unknown_operation_config_error (e : Env) (st st0 : RunState)
    (fileList : List FilePath) (folderPath : String) (listing : List String)
    (operation : String) (tn : Option String) (nv : Option PyVal) (n : Nat)
    (batches : List (List FilePath))
    (h1 : operation ≠ "extract") (h2 : operation ≠ "delete")
    (h3 : operation ≠ "modify") :
    process_images e st fileList operation tn nv
      = (none, st, [Event.evPrint ("Unknown operation: " ++ operation)])
    ∧ (batch_process_images e st folderPath listing operation tn nv n).1 = st
    ∧ ((batch_process_images e st folderPath listing operation tn nv n).2).filter
        isFileAccess = []
    ∧ countEv (Event.evPrint ("Unknown operation: " ++ operation))
        ((batchLoop e operation tn nv st0 batches).2) = batches.length := by
  refine ⟨processImages_unknown e st fileList operation tn nv h1 h2 h3, ?_, ?_, ?_⟩
  · unfold batch_process_images
    by_cases hz : (listing.filter isImageFile).length = 0
    · simp [hz]
    · simp only [if_neg hz]
      rw [batchLoop_unknown e operation tn nv h1 h2 h3]
  · unfold batch_process_images
    by_cases hz : (listing.filter isImageFile).length = 0
    · simp [hz, isFileAccess]
    · simp only [if_neg hz]
      rw [batchLoop_unknown e operation tn nv h1 h2 h3]
      simp only [List.filter_cons, List.filter_append]
      simp [isFileAccess, filter_isFileAccess_const_print]
  · rw [batchLoop_unknown e operation tn nv h1 h2 h3]
    exact countEv_const batches _

/-- Witness for amended C2 at the operation "rename", a two-entry listing and
two concrete one-file batches. -/
theorem unknown_operation_config_error_witness :
    process_images envEx stEx ["b.jpg"] "rename" none none
      = (none, stEx, [Event.evPrint ("Unknown operation: " ++ "rename")])
    ∧ (batch_process_images envEx stEx "d" ["a.jpg", "b.jpg"] "rename" none none 10).1
      = stEx
    ∧ ((batch_process_images envEx stEx "d" ["a.jpg", "b.jpg"] "rename" none none 10).2).filter
        isFileAccess = []
    ∧ countEv (Event.evPrint ("Unknown operation: " ++ "rename"))
        ((batchLoop envEx "rename" none none stEx [["d/a.jpg"], ["d/b.jpg"]]).2)
      = [["d/a.jpg"], ["d/b.jpg"]].length :=
  unknown_operation_config_error envEx stEx stEx ["b.jpg"] "d" ["a.jpg", "b.jpg"]
    "rename" none none 10 [["d/a.jpg"], ["d/b.jpg"]]
    (by decide) (by decide) (by decide)

/-- C6 counterexample. With eleven eligible files and batch size 10, a modify
run with no tag name and no value reports the missing-parameter configuration
error twice (once per batch), not exactly once — though no file is processed.
-/
theorem modify_missing_reported_once_counterexample :
    countEv (Event.evPrint "Missing tag name or value for modification operation.")
        ((batch_process_images envEx stEx "d" listing11 "modify" none none 10).2) = 2
    ∧ ((batch_process_images envEx stEx "d" listing11 "modify" none none 10).2).filter
        isFileAccess = [] := by
  decide

/-- C6 (amended). For every modify run in which the tag name or the new value
is absent (falsy), no file is processed (no file I/O) and the run state is
untouched; `process_images` reports the configuration error exactly once; but
`batch_process_images` reports it once per batch of its loop (so exactly once
per run only when the eligible files fit in a single batch).
-/
theorem modify_missing_config_error (e : Env) (st st0 : RunState)
    (fileList : List FilePath) (folderPath : String) (listing : List String)
    (tn : Option String) (nv : Option PyVal) (n : Nat)
    (batches : List (List FilePath))
    (h : modifyParamsPresent tn nv = false) :
    process_images e st fileList "modify" tn nv
      = (none, st,
          [Event.evPrint "Missing tag name or value for modification operation."])
    ∧ (batch_process_images e st folderPath listing "modify" tn nv n).1 = st
    ∧ ((batch_process_images e st folderPath listing "modify" tn nv n).2).filter
        isFileAccess = []
    ∧ countEv (Event.evPrint "Missing tag name or value for modification operation.")
        ((batchLoop e "modify" tn nv st0 batches).2) = batches.length := by
  refine ⟨processImages_missing e st fileList tn nv h, ?_, ?_, ?_⟩
  · unfold batch_process_images
    by_cases hz : (listing.filter isImageFile).length = 0
    · simp [hz]
    · simp only [if_neg hz]
      rw [batchLoop_missing e tn nv h]
  · unfold batch_process_images
    by_cases hz : (listing.filter isImageFile).length = 0
    · simp [hz, isFileAccess]
    · simp only [if_neg hz]
      rw [batchLoop_missing e tn nv h]
      simp only [List.filter_cons, List.filter_append]
      simp [isFileAccess, filter_isFileAccess_const_print]
  · rw [batchLoop_missing e tn nv h]
    exact countEv_const batches _

/-- Witness for amended C6: tag name present but value absent. -/
theorem modify_missing_config_error_witness :
    modifyParamsPresent (some "Artist") none = false
    ∧ (process_images envEx stEx ["b.jpg"] "modify" (some "Artist") none
        = (none, stEx,
            [Event.evPrint "Missing tag name or value for modification operation."])
      ∧ (batch_process_images envEx stEx "d" ["a.jpg", "b.jpg"] "modify"
          (some "Artist") none 10).1 = stEx
      ∧ ((batch_process_images envEx stEx "d" ["a.jpg", "b.jpg"] "modify"
          (some "Artist") none 10).2).filter isFileAccess = []
      ∧ countEv (Event.evPrint "Missing tag name or value for modification operation.")
          ((batchLoop envEx "modify" (some "Artist") none stEx [["d/a.jpg"]]).2)
        = [["d/a.jpg"]].length) :=
  ⟨by decide,
    modify_missing_config_error envEx stEx stEx ["b.jpg"] "d" ["a.jpg", "b.jpg"]
      (some "Artist") none 10 [["d/a.jpg"]] (by decide)⟩

/-- C10. Presence of the modify parameters is tested by Python truthiness, not
by a `None` check: any falsy new value — including the well-typed integer `0`
and the empty string — or any falsy tag name sends the run into the
"Missing tag name or value" configuration path with no files processed (no
file I/O, state untouched), in both the sequential and the batch engine.
-/
theorem modify_falsy_params_treated_missing (e : Env) (st : RunState)
    (fileList : List FilePath) (folderPath : String) (listing : List String)
    (tn : Option String) (nv : Option PyVal) (n : Nat)
    (h : strParamTruthy tn = false ∨ valParamTruthy nv = false) :
    process_images e st fileList "modify" tn nv
      = (none, st,
          [Event.evPrint "Missing tag name or value for modification operation."])
    ∧ (batch_process_images e st folderPath listing "modify" tn nv n).1 = st
    ∧ ((batch_process_images e st folderPath listing "modify" tn nv n).2).filter
        isFileAccess = [] := by
  have hp : modifyParamsPresent tn nv = false := by
    rw [modifyParamsPresent_eq]
    rcases h with h | h <;> simp [h]
  have := modify_missing_config_error e st st fileList folderPath listing tn nv n [] hp
  exact ⟨this.1, this.2.1, this.2.2.1⟩

/-- Witness for C10: the well-typed but falsy value `0` with a perfectly valid
tag name is treated as missing. -/
theorem modify_falsy_params_treated_missing_witness :
    (strParamTruthy (some "Artist") = false
      ∨ valParamTruthy (some (PyVal.int 0)) = false)
    ∧ (process_images envEx stEx ["b.jpg"] "modify" (some "Artist")
        (some (PyVal.int 0))
        = (none, stEx,
            [Event.evPrint "Missing tag name or value for modification operation."])
      ∧ (batch_process_images envEx stEx "d" ["a.jpg", "b.jpg"] "modify"
          (some "Artist") (some (PyVal.int 0)) 10).1 = stEx
      ∧ ((batch_process_images envEx stEx "d" ["a.jpg", "b.jpg"] "modify"
          (some "Artist") (some (PyVal.int 0)) 10).2).filter isFileAccess = []) :=
  ⟨by decide,
    modify_falsy_params_treated_missing envEx stEx ["b.jpg"] "d" ["a.jpg", "b.jpg"]
      (some "Artist") (some (PyVal.int 0)) 10 (by decide)⟩

end MetaMaster
